import Mathlib

/-!
Shallow embedding of `scrabble_game.py` (the core game logic of the
Scrabble speed-typing drill) together with proofs of the specified
properties.

Modelling conventions:
* Python strings are `List Char` (a Python `str` is a sequence of code
  points; all inputs relevant here are ASCII).  `len` is `List.length`;
  `str.upper`/`str.lower` act characterwise, modelled by the ASCII
  `Char.toUpper`/`Char.toLower` (which agree with Python on ASCII).
* Python's `str.strip()` removes leading and trailing whitespace; the
  ASCII whitespace characters are modelled in `isPySpace`.
* Python's `str.isalpha()` is true iff the string is nonempty and every
  character is alphabetic (ASCII model: `A`-`Z`, `a`-`z`).
* The spell checker (`spellchecker.SpellChecker`) is an external
  dictionary service; it is passed in as a boolean-valued function.
* Python integers are `Int`.
* The mutable state of a `ScrabbleGame` instance that the game logic
  reads or writes is collected in `GameState`; the tkinter widgets are
  represented only through the data the logic extracts from them (the
  timer label's remaining-seconds number, and which warning text is
  displayed, as the inductive `Warning`).  Each Python method or timer
  event becomes a state-transition function.
-/

namespace Scrabble

/-- ASCII whitespace as recognised by Python's `str.strip()`. -/
def isPySpace (c : Char) : Bool :=
  c = ' ' || c = '\t' || c = '\n' || c = '\r' || c = '\x0b' || c = '\x0c'

/-- Python `str.strip()`: drop leading and trailing whitespace. -/
def strip (s : List Char) : List Char :=
  ((s.dropWhile isPySpace).reverse.dropWhile isPySpace).reverse

/-- ASCII alphabetic character (`A`-`Z` or `a`-`z`). -/
def isAsciiAlpha (c : Char) : Bool :=
  (65 ≤ c.toNat && c.toNat ≤ 90) || (97 ≤ c.toNat && c.toNat ≤ 122)

/-- Python `str.isalpha()`: nonempty and every character alphabetic. -/
def isalpha (s : List Char) : Bool :=
  !s.isEmpty && s.all isAsciiAlpha

/-- The `letter_values` dictionary from `calculate_score` in
`scrabble_game.py`, as an association list in source order. -/
def letter_values : List (Char × Int) :=
  [('A', 1), ('E', 1), ('I', 1), ('O', 1), ('U', 1),
   ('L', 1), ('N', 1), ('R', 1), ('S', 1), ('T', 1),
   ('D', 2), ('G', 2),
   ('B', 3), ('C', 3), ('M', 3), ('P', 3),
   ('F', 4), ('H', 4), ('V', 4), ('W', 4), ('Y', 4),
   ('K', 5),
   ('J', 8), ('X', 8),
   ('Q', 10), ('Z', 10)]

/-- `calculate_score(word)`:
`sum(letter_values.get(letter.upper(), 0) for letter in word)`. -/
def calculate_score (word : List Char) : Int :=
  (word.map (fun letter => (letter_values.lookup letter.toUpper).getD 0)).sum

/-- `is_valid_word(word)`: `word.lower() in spell`, with the spell
checker abstracted as the function `dict`. -/
def is_valid_word (dict : List Char → Bool) (word : List Char) : Bool :=
  dict (word.map Char.toLower)

/-- `calculate_time_bonus(elapsed_time)` from `scrabble_game.py`. -/
def calculate_time_bonus (elapsed_time : Int) : Int :=
  if elapsed_time ≤ 5 then 20
  else if elapsed_time ≤ 10 then 10
  else if elapsed_time ≤ 15 then 5
  else 0

/-- The text displayed in `warning_label` (and, on the valid path, the
score report shown by `show_score`), abstracted to its distinct forms. -/
inductive Warning where
  | cleared
  | notAlphabetic
  | wrongLength (n : Nat)
  | notInDictionary
  | timesUp
  | score (base bonus : Int)
deriving DecidableEq, Repr

/-- The mutable state of a `ScrabbleGame` instance read or written by the
game logic.  `remaining` is the number shown in the timer label's text
(`check_word` parses it back out of the label); `stop_event` is the
threading `Event`; `warning` is which warning text is displayed. -/
structure GameState where
  required_length : Nat
  total_score : Int
  current_round : Nat
  max_rounds : Nat
  timer_running : Bool
  stop_event : Bool
  remaining : Nat
  warning : Warning
deriving DecidableEq, Repr

/-- `ScrabbleGame.check_word`: validate the entry (after `strip`) and on
success add `base + bonus` to the score and display the score report
(`show_score`).  `elapsed_time` is recomputed as `15 - remaining`, where
`remaining` is parsed from the timer label.  Note that no timer field is
modified on any path. -/
def check_word (dict : List Char → Bool) (entry : List Char)
    (g : GameState) : GameState :=
  if !g.timer_running then g
  else
    let user_input := strip entry
    if !(isalpha user_input) then
      { g with warning := .notAlphabetic }
    else if user_input.length ≠ g.required_length then
      { g with warning := .wrongLength g.required_length }
    else if !(is_valid_word dict user_input) then
      { g with warning := .notInDictionary }
    else
      let elapsed_time : Int := 15 - (g.remaining : Int)
      let base_score := calculate_score user_input
      let time_bonus := calculate_time_bonus elapsed_time
      let round_score := base_score + time_bonus
      { g with total_score := g.total_score + round_score,
               warning := .score base_score time_bonus }

/-- One iteration of the loop in `ScrabbleGame.countdown_timer`: if the
stop event is not set, display `remaining` in the timer label. -/
def timer_tick (r : Nat) (g : GameState) : GameState :=
  if !g.stop_event then { g with remaining := r } else g

/-- The tail of `ScrabbleGame.countdown_timer` after the loop: if the stop
event was never set, display 0 and show "Time's up!" (a later scheduled
`start_round` is a separate event).  `timer_running` is not touched. -/
def timer_expire (g : GameState) : GameState :=
  if !g.stop_event then { g with remaining := 0, warning := .timesUp } else g

/-- `ScrabbleGame.start_timer`: join any running timer thread, clear the
stop event and mark the timer running (the new thread's ticks are
separate `timer_tick` events). -/
def start_timer (g : GameState) : GameState :=
  { g with stop_event := false, timer_running := true }

/-- `ScrabbleGame.start_round`: when rounds remain, advance the round
counter, adopt the freshly drawn required length (`random.randint(3, 7)`,
passed in as `len`), clear the warning and start the timer; otherwise
only `show_end_game_screen` runs, which changes no game state. -/
def start_round (len : Nat) (g : GameState) : GameState :=
  if g.current_round < g.max_rounds then
    start_timer { g with current_round := g.current_round + 1,
                         required_length := len,
                         warning := .cleared }
  else g

/-- `ScrabbleGame.setup_gui`: rebuild the widgets (the timer label is
created showing 15, the warning label empty) and then call
`start_round`. -/
def setup_gui (len : Nat) (g : GameState) : GameState :=
  start_round len { g with remaining := 15, warning := .cleared }

/-- `ScrabbleGame.reset_game`: zero the score and round counter, rebuild
the GUI via `setup_gui` (which itself calls `start_round`) and then call
`start_round` once more.  The two rounds started draw lengths `len1` and
`len2`. -/
def reset_game (len1 len2 : Nat) (g : GameState) : GameState :=
  start_round len2 (setup_gui len1 { g with total_score := 0,
                                            current_round := 0 })

/-- The spec's `ValidationOutcome`. -/
inductive ValidationOutcome where
  | Valid
  | NotAlphabetic
  | WrongLength (expected : Nat)
  | NotInDictionary
deriving DecidableEq, Repr

/-- The Word Validator: the three checks of `check_word`, in source
order, extracted as a function of the (already stripped) word. -/
def validate (dict : List Char → Bool) (required_length : Nat)
    (word : List Char) : ValidationOutcome :=
  if !(isalpha word) then .NotAlphabetic
  else if word.length ≠ required_length then .WrongLength required_length
  else if !(is_valid_word dict word) then .NotInDictionary
  else .Valid

/-- The warning text `check_word` displays for each rejection outcome. -/
def rejectionWarning : ValidationOutcome → Warning
  | .Valid => .cleared
  | .NotAlphabetic => .notAlphabetic
  | .WrongLength n => .wrongLength n
  | .NotInDictionary => .notInDictionary

/-- A concrete dictionary accepting exactly the word "cabbage". -/
def dictCabbage (w : List Char) : Bool :=
  w == "cabbage".toList

/-- A concrete active round-1 state: required length 7, timer running,
timer label showing 4 seconds remaining. -/
def exampleRound : GameState :=
  { required_length := 7, total_score := 0, current_round := 1,
    max_rounds := 10, timer_running := true, stop_event := false,
    remaining := 4, warning := .cleared }

/-! ### Helper lemmas about `dropWhile` and `strip` -/

theorem dropWhile_idem (p : Char → Bool) (l : List Char) :
    (l.dropWhile p).dropWhile p = l.dropWhile p := by
  cases h : l.dropWhile p with
  | nil => rfl
  | cons y t =>
    have hy : p y = false := by
      have hh := List.head?_dropWhile_not p l
      rw [h] at hh
      simpa using hh
    simp [hy]

theorem dropWhile_eq_self_of_append {p : Char → Bool} {l m t : List Char}
    (h : l.dropWhile p = l) (hm : l = m ++ t) : m.dropWhile p = m := by
  cases m with
  | nil => rfl
  | cons y u =>
    cases hp : p y with
    | false => simp [hp]
    | true =>
      exfalso
      subst hm
      rw [List.cons_append, List.dropWhile_cons_of_pos hp] at h
      have hlen := (List.dropWhile_sublist (l := u ++ t) p).length_le
      have hc := congrArg List.length h
      simp only [List.length_cons] at hc
      omega

theorem strip_append (s : List Char) :
    ∃ t, s.dropWhile isPySpace = strip s ++ t := by
  obtain ⟨t, ht⟩ :=
    List.dropWhile_suffix (l := (s.dropWhile isPySpace).reverse) isPySpace
  refine ⟨t.reverse, ?x⟩
  have hr := congrArg List.reverse ht
  simp only [List.reverse_append, List.reverse_reverse] at hr
  exact hr.symm

theorem dropWhile_strip (s : List Char) :
    (strip s).dropWhile isPySpace = strip s := by
  obtain ⟨t, ht⟩ := strip_append s
  exact dropWhile_eq_self_of_append (dropWhile_idem _ s) ht

theorem strip_idem (s : List Char) : strip (strip s) = strip s := by
  show (((strip s).dropWhile isPySpace).reverse.dropWhile isPySpace).reverse
      = strip s
  rw [dropWhile_strip]
  show ((((s.dropWhile isPySpace).reverse.dropWhile
      isPySpace).reverse).reverse.dropWhile isPySpace).reverse = strip s
  rw [List.reverse_reverse, dropWhile_idem]
  rfl

/-! ### Claim C10 -/

/-- C10: every submitted string is stripped of leading and trailing
whitespace before any validation check runs: `check_word` behaves on any
entry exactly as on its stripped form, and concretely a valid word
surrounded by whitespace is accepted and scored as the trimmed word
rather than rejected as non-alphabetic. -/
theorem check_word_strips_entry :
    (∀ (dict : List Char → Bool) (entry : List Char) (g : GameState),
        check_word dict entry g = check_word dict (strip entry) g)
  ∧ check_word dictCabbage ("  cabbage ".toList) exampleRound
      = check_word dictCabbage ("cabbage".toList) exampleRound
  ∧ (check_word dictCabbage ("  cabbage ".toList) exampleRound).warning
      = .score 14 5 := by
  refine ⟨fun dict entry g => ?x, by decide, by decide⟩
  simp only [check_word, strip_idem]

/-! ### Claim C3 -/

/-- C3: the time-bonus tiers: 20 for 0-5 elapsed seconds, 10 for 6-10,
5 for 11-15, 0 above 15, with each tier's upper boundary inclusive;
including the spec's boundary evaluations. -/
theorem calculate_time_bonus_tiers (e : Int) (he : 0 ≤ e) :
    (e ≤ 5 → calculate_time_bonus e = 20)
  ∧ (6 ≤ e → e ≤ 10 → calculate_time_bonus e = 10)
  ∧ (11 ≤ e → e ≤ 15 → calculate_time_bonus e = 5)
  ∧ (15 < e → calculate_time_bonus e = 0)
  ∧ calculate_time_bonus 0 = 20 ∧ calculate_time_bonus 5 = 20
  ∧ calculate_time_bonus 6 = 10 ∧ calculate_time_bonus 10 = 10
  ∧ calculate_time_bonus 11 = 5 ∧ calculate_time_bonus 15 = 5
  ∧ calculate_time_bonus 16 = 0 := by
  unfold calculate_time_bonus
  refine ⟨fun h => ?a, fun h6 h10 => ?b, fun h11 h15 => ?c, fun h16 => ?d,
    by decide, by decide, by decide, by decide, by decide, by decide,
    by decide⟩
  · rw [if_pos h]
  · rw [if_neg (by omega), if_pos h10]
  · rw [if_neg (by omega), if_neg (by omega), if_pos h15]
  · rw [if_neg (by omega), if_neg (by omega), if_neg (by omega)]

/-- Witness for C3 at `elapsedSeconds = 7`. -/
theorem calculate_time_bonus_tiers_witness : calculate_time_bonus 7 = 10 :=
  (calculate_time_bonus_tiers 7 (by decide)).2.1 (by decide) (by decide)

/-! ### Claim C4 -/

theorem letter_values_keys_upper :
    ∀ p ∈ letter_values, 65 ≤ p.1.toNat ∧ p.1.toNat ≤ 90 := by decide

theorem lookup_letter_values_eq_none {c : Char}
    (h : ¬(65 ≤ c.toNat ∧ c.toNat ≤ 90)) :
    letter_values.lookup c = none := by
  rw [List.lookup_eq_none_iff]
  intro p hp
  have hk := letter_values_keys_upper p hp
  refine bne_iff_ne.mpr fun hc => ?x
  rw [hc] at h
  exact h hk

theorem toUpper_eq_self_of_not_lower {c : Char}
    (h : ¬(97 ≤ c.toNat ∧ c.toNat ≤ 122)) : c.toUpper = c := by
  unfold Char.toUpper
  exact if_neg h

/-- C4: `calculate_score` sums, over the characters of the word, the
letter value of the uppercase-normalized character; a character that is
not a letter contributes 0; the empty string scores 0; and
`score("apple") = 9`, `score("orange") = 7`. -/
theorem calculate_score_characterization :
    calculate_score [] = 0
  ∧ (∀ (c : Char) (cs : List Char),
        calculate_score (c :: cs)
          = (letter_values.lookup c.toUpper).getD 0 + calculate_score cs)
  ∧ (∀ c : Char, isAsciiAlpha c = false →
        (letter_values.lookup c.toUpper).getD 0 = 0)
  ∧ calculate_score ("apple".toList) = 9
  ∧ calculate_score ("orange".toList) = 7 := by
  refine ⟨rfl, fun c cs => by simp [calculate_score], fun c hc => ?x,
    by decide, by decide⟩
  have hn : ¬(97 ≤ c.toNat ∧ c.toNat ≤ 122) ∧ ¬(65 ≤ c.toNat ∧ c.toNat ≤ 90) := by
    unfold isAsciiAlpha at hc
    constructor <;> intro hr <;> simp [hr.1, hr.2] at hc
  rw [toUpper_eq_self_of_not_lower hn.1,
    lookup_letter_values_eq_none hn.2]
  rfl

/-- Witness for C4: the non-letter `'1'` contributes 0 (together with a
use of the cons decomposition on `"1a"`). -/
theorem calculate_score_characterization_witness :
    (letter_values.lookup ('1').toUpper).getD 0 = 0 :=
  calculate_score_characterization.2.2.1 '1' (by decide)

/-! ### `check_word` versus the extracted validator -/

/-- In an active round (`timer_running`), `check_word` is the extracted
validator followed by either the rejection warning or the scoring
update. -/
theorem check_word_eq_validate (dict : List Char → Bool) (entry : List Char)
    (g : GameState) (ht : g.timer_running = true) :
    check_word dict entry g =
      match validate dict g.required_length (strip entry) with
      | .Valid =>
          { g with
            total_score := g.total_score + (calculate_score (strip entry)
              + calculate_time_bonus (15 - (g.remaining : Int))),
            warning := .score (calculate_score (strip entry))
              (calculate_time_bonus (15 - (g.remaining : Int))) }
      | out => { g with warning := rejectionWarning out } := by
  unfold check_word validate
  rw [ht]
  cases ha : isalpha (strip entry) with
  | false => simp [ha, rejectionWarning]
  | true =>
    by_cases hl : (strip entry).length = g.required_length
    · cases hd : is_valid_word dict (strip entry) with
      | false => simp [ha, hl, hd, rejectionWarning]
      | true => simp [ha, hl, hd]
    · simp [ha, hl, rejectionWarning]

/-! ### Claim C1 -/

/-- C1: on a valid submission in an active round, `check_word` computes
`elapsedSeconds = 15 - remainingSeconds` from the timer's last reported
value, adds `baseScore + timeBonus` to the total, and reports the
breakdown; concretely, with required length 7, word "cabbage" and 4
seconds remaining, elapsed is 11, the bonus is 5, and 19 = 14 + 5 is
added, reported as base 14 / bonus 5. -/
theorem check_word_valid_adds_base_plus_bonus (dict : List Char → Bool)
    (entry : List Char) (g : GameState) (ht : g.timer_running = true)
    (hv : validate dict g.required_length (strip entry) = .Valid) :
    ((check_word dict entry g).total_score
        = g.total_score + (calculate_score (strip entry)
            + calculate_time_bonus (15 - (g.remaining : Int)))
      ∧ (check_word dict entry g).warning
          = .score (calculate_score (strip entry))
              (calculate_time_bonus (15 - (g.remaining : Int))))
  ∧ calculate_time_bonus (15 - (4 : Int)) = 5
  ∧ calculate_score ("cabbage".toList) = 14
  ∧ check_word dictCabbage ("cabbage".toList) exampleRound
      = { exampleRound with total_score := 0 + (14 + 5),
                            warning := .score 14 5 } := by
  rw [check_word_eq_validate dict entry g ht, hv]
  exact ⟨⟨rfl, rfl⟩, by decide, by decide, by decide⟩

/-- Witness for C1: the "cabbage" end-to-end instance. -/
theorem check_word_valid_adds_base_plus_bonus_witness :
    (check_word dictCabbage ("cabbage".toList) exampleRound).total_score
        = 0 + (14 + 5)
      ∧ (check_word dictCabbage ("cabbage".toList) exampleRound).warning
        = .score 14 5 := by
  have h := check_word_valid_adds_base_plus_bonus dictCabbage
    ("cabbage".toList) exampleRound rfl (by decide)
  refine ⟨?a, ?b⟩
  · rw [h.1.1]
    decide
  · rw [h.1.2]
    decide

/-! ### Claim C2 -/

/-- C2: the validator applies its three checks fail-fast in the fixed
order alphabetic, exact length, dictionary membership, so the first
failing check determines the outcome: any non-alphabetic string (in
particular one that also has the wrong length) yields `NotAlphabetic`,
an alphabetic string of wrong length yields `WrongLength`, and an
alphabetic string of the right length absent from the dictionary yields
`NotInDictionary`; concretely `"1a"` with required length 5 yields
`NotAlphabetic`, never `WrongLength`. -/
theorem validate_fail_fast_order (dict : List Char → Bool) (n : Nat)
    (w : List Char) :
    (isalpha w = false → validate dict n w = .NotAlphabetic)
  ∧ (isalpha w = true → w.length ≠ n → validate dict n w = .WrongLength n)
  ∧ (isalpha w = true → w.length = n → is_valid_word dict w = false →
        validate dict n w = .NotInDictionary)
  ∧ (isalpha w = true → w.length = n → is_valid_word dict w = true →
        validate dict n w = .Valid)
  ∧ validate dict 5 ("1a".toList) = .NotAlphabetic
  ∧ validate dict 5 ("1a".toList) ≠ .WrongLength 5 := by
  unfold validate
  refine ⟨fun ha => by simp [ha], fun ha hl => by simp [ha, hl],
    fun ha hl hd => by simp [ha, hl, hd], fun ha hl hd => by simp [ha, hl, hd],
    ?a, ?b⟩ <;>
    have h1a : isalpha ['1', 'a'] = false := by decide
  · simp [h1a]
  · simp [h1a]

/-- Witness for C2: the non-alphabetic, wrong-length input `"1a"` with
required length 5 reports the alphabetic failure. -/
theorem validate_fail_fast_order_witness :
    validate (fun _ => true) 5 ("1a".toList) = .NotAlphabetic :=
  (validate_fail_fast_order (fun _ => true) 5 ("1a".toList)).1 (by decide)

/-! ### Claim C5 -/

/-- C5: in an active round, a submission whose validation outcome is not
`Valid` only surfaces the specific rejection warning: the total score,
round counter, required length, timer state and displayed remaining
time are unchanged and the round stays active, so the rejected round
contributes 0 to the total score. -/
theorem check_word_rejection_preserves_state (dict : List Char → Bool)
    (entry : List Char) (g : GameState) (ht : g.timer_running = true)
    (hv : validate dict g.required_length (strip entry)
        ≠ .Valid) :
    (check_word dict entry g).total_score = g.total_score
  ∧ (check_word dict entry g).current_round = g.current_round
  ∧ (check_word dict entry g).required_length = g.required_length
  ∧ (check_word dict entry g).max_rounds = g.max_rounds
  ∧ (check_word dict entry g).timer_running = true
  ∧ (check_word dict entry g).stop_event = g.stop_event
  ∧ (check_word dict entry g).remaining = g.remaining
  ∧ (check_word dict entry g).warning
      = rejectionWarning (validate dict g.required_length (strip entry)) := by
  rw [check_word_eq_validate dict entry g ht]
  cases hout : validate dict g.required_length (strip entry) with
  | Valid => exact absurd hout hv
  | NotAlphabetic => exact ⟨rfl, rfl, rfl, rfl, ht, rfl, rfl, rfl⟩
  | WrongLength m => exact ⟨rfl, rfl, rfl, rfl, ht, rfl, rfl, rfl⟩
  | NotInDictionary => exact ⟨rfl, rfl, rfl, rfl, ht, rfl, rfl, rfl⟩

/-- Witness for C5: submitting the non-alphabetic `"1a"` in the example
round changes nothing but the warning. -/
theorem check_word_rejection_preserves_state_witness :
    (check_word dictCabbage ("1a".toList) exampleRound).total_score = 0
  ∧ (check_word dictCabbage ("1a".toList) exampleRound).current_round = 1
  ∧ (check_word dictCabbage ("1a".toList) exampleRound).timer_running = true
  ∧ (check_word dictCabbage ("1a".toList) exampleRound).warning
      = .notAlphabetic := by
  have h := check_word_rejection_preserves_state dictCabbage ("1a".toList)
    exampleRound rfl (by decide)
  exact ⟨h.1, h.2.1, h.2.2.2.2.1, by rw [h.2.2.2.2.2.2.2]; decide⟩

/-! ### Claim C6 -/

/-- A state at the game-over boundary: `current_round = max_rounds = 10`
(the flags are as the code leaves them: `timer_running` is never set
back to `false` anywhere in the source). -/
def gameOverState : GameState :=
  { required_length := 7, total_score := 100, current_round := 10,
    max_rounds := 10, timer_running := true, stop_event := false,
    remaining := 0, warning := .cleared }

/-- C6 fails on the code: after the timer expires (`timer_expire` leaves
`timer_running = true`, since nothing in the source ever clears it), a
valid submission is still processed and adds 14 + 5 = 19 to the total
score instead of being silently dropped; likewise at the game-over
boundary (`current_round = max_rounds`, where `start_round` changes no
state) a submission still adds to the total score. -/
theorem check_word_after_expiry_still_scores :
    (timer_expire exampleRound).timer_running = true
  ∧ (timer_expire exampleRound).warning = .timesUp
  ∧ exampleRound.total_score = 0
  ∧ (check_word dictCabbage ("cabbage".toList)
      (timer_expire exampleRound)).total_score = 19
  ∧ start_round 5 gameOverState = gameOverState
  ∧ (check_word dictCabbage ("cabbage".toList) gameOverState).total_score
      = 100 + 19 := by
  decide

/-! ### Claim C7 -/

/-- C7 fails on the code: the "cabbage" submission is accepted (the score
report is displayed) yet the stop event is not set and the timer is
still marked running, and a subsequent tick of the old round's timer
still fires (updates the displayed remaining time). -/
theorem check_word_valid_does_not_cancel_timer :
    (check_word dictCabbage ("cabbage".toList) exampleRound).warning
        = .score 14 5
  ∧ (check_word dictCabbage ("cabbage".toList) exampleRound).stop_event
        = false
  ∧ (check_word dictCabbage ("cabbage".toList) exampleRound).timer_running
        = true
  ∧ (timer_tick 3
        (check_word dictCabbage ("cabbage".toList) exampleRound)).remaining
        = 3 := by
  decide

/-- C7 amended: a valid submission accepted in an active round does not
signal the round timer to stop: `check_word` leaves the stop event unset
and the timer marked running, so ticks of the old round's timer can
still fire after acceptance; the old timer is only stopped later, when
the next round's `start_timer` runs. -/
theorem check_word_valid_leaves_timer_running (dict : List Char → Bool)
    (entry : List Char) (g : GameState) (ht : g.timer_running = true)
    (hs : g.stop_event = false)
    (hv : validate dict g.required_length (strip entry) = .Valid) :
    (check_word dict entry g).stop_event = false
  ∧ (check_word dict entry g).timer_running = true
  ∧ ∀ r : Nat, (timer_tick r (check_word dict entry g)).remaining = r := by
  rw [check_word_eq_validate dict entry g ht, hv]
  refine ⟨hs, ht, fun r => ?x⟩
  unfold timer_tick
  rw [hs]
  rfl

/-- Witness for the amended C7 at the "cabbage" example. -/
theorem check_word_valid_leaves_timer_running_witness :
    (check_word dictCabbage ("cabbage".toList) exampleRound).stop_event
        = false
  ∧ (check_word dictCabbage ("cabbage".toList) exampleRound).timer_running
        = true
  ∧ ∀ r : Nat,
      (timer_tick r
        (check_word dictCabbage ("cabbage".toList) exampleRound)).remaining
        = r :=
  check_word_valid_leaves_timer_running dictCabbage ("cabbage".toList)
    exampleRound rfl rfl (by decide)

/-! ### Claim C8 -/

/-- A mid-game state from which the game is reset. -/
def midGameState : GameState :=
  { required_length := 4, total_score := 42, current_round := 5,
    max_rounds := 10, timer_running := true, stop_event := false,
    remaining := 9, warning := .cleared }

/-- `midGameState` right after `reset_game` has zeroed the score and
round counter, before its GUI rebuild. -/
def midGameZeroed : GameState :=
  { midGameState with total_score := 0, current_round := 0 }

/-- C8 fails on the code: `reset_game` zeroes the score and round
counter, but then starts a round twice — once from the tail of
`setup_gui` and once from its own final `start_round` call — so the
session ends up in round 2, not round 1 (`setup_gui` alone already
leaves it in round 1). -/
theorem reset_game_starts_round_twice :
    (reset_game 5 6 midGameState).total_score = 0
  ∧ (reset_game 5 6 midGameState).current_round = 2
  ∧ (setup_gui 5 midGameZeroed).current_round = 1 := by
  decide

/-! ### Claim C9 -/

theorem toNat_ofNat_small {n : Nat} (h : n < 55296) :
    (Char.ofNat n).toNat = n := by
  rw [Char.ofNat, dif_pos (Or.inl h)]
  rfl

theorem toUpper_toUpper (c : Char) : c.toUpper.toUpper = c.toUpper := by
  unfold Char.toUpper
  by_cases h : 97 ≤ c.toNat ∧ c.toNat ≤ 122
  · rw [if_pos h]
    have h2 : (Char.ofNat (c.toNat - 32)).toNat = c.toNat - 32 :=
      toNat_ofNat_small (by omega)
    rw [if_neg (by omega)]
  · rw [if_neg h, if_neg h]

theorem toUpper_toLower (c : Char) : c.toLower.toUpper = c.toUpper := by
  unfold Char.toLower Char.toUpper
  by_cases h : 65 ≤ c.toNat ∧ c.toNat ≤ 90
  · rw [if_pos h]
    have h2 : (Char.ofNat (c.toNat + 32)).toNat = c.toNat + 32 :=
      toNat_ofNat_small (by omega)
    rw [if_pos (by omega), if_neg (by omega), h2,
      Nat.add_sub_cancel, Char.ofNat_toNat]
  · rw [if_neg h]

/-- C9: for every word of letters A-Z (either case), `calculate_score`
is case-insensitive: uppercasing or lowercasing the word (Python's
`str.upper()`/`str.lower()` act characterwise) leaves the score
unchanged. -/
theorem calculate_score_case_insensitive (w : List Char)
    (hw : w.all isAsciiAlpha = true) :
    calculate_score (w.map Char.toUpper) = calculate_score w
  ∧ calculate_score (w.map Char.toLower) = calculate_score w := by
  constructor <;>
    simp only [calculate_score, List.map_map, Function.comp_def,
      toUpper_toUpper, toUpper_toLower]

/-- Witness for C9 at the mixed-case word "oRANGe". -/
theorem calculate_score_case_insensitive_witness :
    calculate_score (("oRANGe".toList).map Char.toUpper)
        = calculate_score ("oRANGe".toList)
  ∧ calculate_score (("oRANGe".toList).map Char.toLower)
        = calculate_score ("oRANGe".toList) :=
  calculate_score_case_insensitive ("oRANGe".toList) (by decide)

end Scrabble
